import Mathlib

/-!
Shallow embedding of `src/graphics.c` from the OpenGL-ES-3.0-Deferred-Rendering
repository.

Modelling conventions:
* GPU handles (programs, textures, framebuffers, meshes) are modelled as `Nat`
  values; the C `Texture` struct is a single GL texture id, and a `Texture*`
  argument is modelled by that id directly. `NULL` is `0` (from `calloc`).
* The vector-math library (`vec_math.h`, external to `src/`) is kept abstract:
  a `VecMath` record supplies the scalar, matrix and transform types together
  with the operations `transform_get_matrix`, `mat4_inverse`,
  `mat4_perspective_fov`, the constant `kPiDiv2`, the float literals `0.1f` and
  `1000.0f`, float division and int-to-float conversion, and `transform_zero`.
  Every theorem below holds for every instantiation of this record.
* Calls into the GL driver are modelled as an event trace (`GLEvent`);
  `render_graphics` returns the updated `Graphics` state together with the
  trace of GL calls it issues, in program order. The helper `_draw_mesh`
  (buffer binds, attribute-pointer walking, `glDrawElements`) is abstracted to
  the single event `draw_mesh` carrying the mesh pointer, since it issues
  exactly one indexed draw per invocation.
* The C `int` counters `num_commands` / `num_lights` start at 0 and are only
  ever incremented or reset to 0, so they are modelled as `Nat`.
* The `assert` in `add_render_command` / `add_directional_light` is modelled as
  a checkpoint: `AddOutcome` records the value of the asserted condition, the
  program state at the moment the assert is evaluated, the array index written,
  and the final state reached when execution continues past the assert (the
  release-build semantics, identical to the debug semantics whenever the
  assertion passes).
* GL clear-color float literals are modelled as exact rationals; no claim
  depends on their floating-point rounding.
-/

namespace DeferredGL

/-- Capacity of the render-command queue (`#define MAX_RENDER_COMMANDS 1024`). -/
def MAX_RENDER_COMMANDS : Nat := 1024

/-- Capacity of the light queue (`#define MAX_LIGHTS 64`). -/
def MAX_LIGHTS : Nat := 64

/-- Attribute slot enumeration from the helper header (position slot). -/
def kPositionSlot : Nat := 0

/-- Attribute slot enumeration from the helper header (normal slot). -/
def kNormalSlot : Nat := 1

/-- Attribute slot enumeration from the helper header (texcoord slot). -/
def kTexCoordSlot : Nat := 2

/-- Abstract interface of the external vector-math library (`vec_math.h`).
`S` is the scalar (C `float`), `M` the 4x4 matrix type, `T` the transform. -/
structure VecMath (S M T : Type) where
  transform_get_matrix : T → M
  mat4_inverse : M → M
  mat4_perspective_fov : S → S → S → S → M
  kPiDiv2 : S
  floatOfInt : Int → S
  fdiv : S → S → S
  lit_0_1 : S
  lit_1000 : S
  transform_zero : T

/-- The `RenderCommand` struct: a transform, a mesh pointer and a diffuse
texture (`Texture*`, modelled by its GL texture id). -/
structure RenderCommand (T : Type) where
  transform : T
  mesh : Nat
  diffuse : Nat
deriving DecidableEq

/-- GL object ids and uniform locations handed back by the GL driver during
`create_graphics` (`glCreateProgram`, `glGetUniformLocation`, `glGenTextures`,
`glGenFramebuffers`, `gl_create_mesh`). -/
structure GLHandles where
  program : Nat
  projection_uniform : Nat
  view_uniform : Nat
  world_uniform : Nat
  diffuse_uniform : Nat
  lights_uniform : Nat
  num_lights_uniform : Nat
  color_renderbuffer : Nat
  depth_renderbuffer : Nat
  depth_texture : Nat
  framebuffer : Nat
  fullscreen_program : Nat
  fullscreen_texture_uniform : Nat
  cube_mesh : Nat
  quad_mesh : Nat

/-- The `Graphics` context struct, field for field. The fixed-size C arrays
`commands[MAX_RENDER_COMMANDS]` and `lights[MAX_LIGHTS]` are modelled as total
maps from indices; the in-use region is the prefix below the counter. -/
structure Graphics (M T L : Type) where
  program : Nat
  projection_uniform : Nat
  view_uniform : Nat
  world_uniform : Nat
  diffuse_uniform : Nat
  lights_uniform : Nat
  num_lights_uniform : Nat
  color_renderbuffer : Nat
  depth_renderbuffer : Nat
  depth_texture : Nat
  framebuffer : Nat
  width : Int
  height : Int
  projection_matrix : M
  view_transform : T
  fullscreen_program : Nat
  fullscreen_texture_uniform : Nat
  cube_mesh : Nat
  quad_mesh : Nat
  commands : Nat → RenderCommand T
  num_commands : Nat
  lights : Nat → L
  num_lights : Nat

/-- One call into the GL driver, as recorded in program order by the model of
`render_graphics`. Color components are exact rationals standing for the float
literals of the source. -/
inductive GLEvent (M L : Type) where
  | queryFramebufferBinding (result : Nat)
  | bindFramebuffer (fbo : Nat)
  | clearColor (r g b a : ℚ)
  | clear
  | useProgram (p : Nat)
  | enableVertexAttribArray (slot : Nat)
  | uniformMatrix4fv (location : Nat) (value : M)
  | uniform3fv (location : Nat) (count : Nat) (values : List L)
  | uniform1i (location : Nat) (value : Int)
  | activeTexture (texunit : Nat)
  | bindTexture (t : Nat)
  | draw_mesh (mesh : Nat)
deriving DecidableEq

/-- State construction performed by `create_graphics(width, height)`: the
struct is `calloc`-zeroed (pointers 0, zero bytes read back as `default`),
the driver-provided handles are stored, the projection matrix is computed by
`mat4_perspective_fov(kPiDiv2, width/(float)height, 0.1f, 1000.0f)` and the
view transform is set to `transform_zero`. -/
def create_graphics {S M T L : Type} [Inhabited T] [Inhabited L]
    (vm : VecMath S M T) (h : GLHandles) (width height : Int) :
    Graphics M T L :=
  { program := h.program
    projection_uniform := h.projection_uniform
    view_uniform := h.view_uniform
    world_uniform := h.world_uniform
    diffuse_uniform := h.diffuse_uniform
    lights_uniform := h.lights_uniform
    num_lights_uniform := h.num_lights_uniform
    color_renderbuffer := h.color_renderbuffer
    depth_renderbuffer := h.depth_renderbuffer
    depth_texture := h.depth_texture
    framebuffer := h.framebuffer
    width := width
    height := height
    projection_matrix :=
      vm.mat4_perspective_fov vm.kPiDiv2
        (vm.fdiv (vm.floatOfInt width) (vm.floatOfInt height))
        vm.lit_0_1 vm.lit_1000
    view_transform := vm.transform_zero
    fullscreen_program := h.fullscreen_program
    fullscreen_texture_uniform := h.fullscreen_texture_uniform
    cube_mesh := h.cube_mesh
    quad_mesh := h.quad_mesh
    commands := fun _ => { transform := default, mesh := 0, diffuse := 0 }
    num_commands := 0
    lights := fun _ => default
    num_lights := 0 }

/-- Result of running `add_render_command` / `add_directional_light`:
the value of the asserted condition, the state at the moment the assert is
evaluated (the counter is already incremented there), the array index the
entry is written to, and the state after the writes (release-build
continuation; equal to the debug outcome when the assertion passes). -/
structure AddOutcome (G : Type) where
  assert_ok : Bool
  state_at_assert : G
  write_index : Nat
  final : G

/-- Embedding of `add_render_command`: `int index = graphics->num_commands++;
assert(index < MAX_RENDER_COMMANDS);` then the three field writes to
`commands[index]`. -/
def add_render_command {M T L : Type} (g : Graphics M T L)
    (mesh : Nat) (diffuse : Nat) (transform : T) :
    AddOutcome (Graphics M T L) :=
  let index := g.num_commands
  let g1 := { g with num_commands := g.num_commands + 1 }
  { assert_ok := decide (index < MAX_RENDER_COMMANDS)
    state_at_assert := g1
    write_index := index
    final :=
      { g1 with
        commands :=
          Function.update g1.commands index
            { transform := transform, mesh := mesh, diffuse := diffuse } } }

/-- Embedding of `add_directional_light`: `int index = graphics->num_lights++;
assert(index < MAX_LIGHTS); graphics->lights[index] = light;`. -/
def add_directional_light {M T L : Type} (g : Graphics M T L) (light : L) :
    AddOutcome (Graphics M T L) :=
  let index := g.num_lights
  let g1 := { g with num_lights := g.num_lights + 1 }
  { assert_ok := decide (index < MAX_LIGHTS)
    state_at_assert := g1
    write_index := index
    final := { g1 with lights := Function.update g1.lights index light } }

/-- Embedding of `set_view_transform`. -/
def set_view_transform {M T L : Type} (g : Graphics M T L) (view : T) :
    Graphics M T L :=
  { g with view_transform := view }

/-- GL calls issued by `render_graphics` up to and including the per-frame
uniform uploads: the framebuffer-binding query, offscreen framebuffer bind,
clear, program bind, attribute enables, projection and view matrix uploads,
light-array and light-count uploads, and the diffuse sampler setup.
`boundFBO` is the framebuffer binding the driver reports for the
`glGetIntegerv(GL_FRAMEBUFFER_BINDING, ...)` query. -/
def render_pass1_events {S M T L : Type} (vm : VecMath S M T)
    (g : Graphics M T L) (boundFBO : Nat) : List (GLEvent M L) :=
  let view_matrix := vm.mat4_inverse (vm.transform_get_matrix g.view_transform)
  [ .queryFramebufferBinding boundFBO,
    .bindFramebuffer g.framebuffer,
    .clearColor 0 (1/5) (2/5) 1,
    .clear,
    .useProgram g.program,
    .enableVertexAttribArray kPositionSlot,
    .enableVertexAttribArray kNormalSlot,
    .enableVertexAttribArray kTexCoordSlot,
    .uniformMatrix4fv g.projection_uniform g.projection_matrix,
    .uniformMatrix4fv g.view_uniform view_matrix,
    .uniform3fv g.lights_uniform g.num_lights
      ((List.range g.num_lights).map g.lights),
    .uniform1i g.num_lights_uniform (g.num_lights : Int),
    .activeTexture 0,
    .uniform1i g.diffuse_uniform 0 ]

/-- GL calls issued by the render-command loop of `render_graphics`: for each
`ii` below `num_commands`, in order, upload the model matrix of
`commands[ii]`, bind its diffuse texture, and draw its mesh. -/
def render_command_events {S M T L : Type} (vm : VecMath S M T)
    (g : Graphics M T L) : List (GLEvent M L) :=
  (List.range g.num_commands).flatMap fun ii =>
    let command := g.commands ii
    [ .uniformMatrix4fv g.world_uniform
        (vm.transform_get_matrix command.transform),
      .bindTexture command.diffuse,
      .draw_mesh command.mesh ]

/-- GL calls of the composite pass of `render_graphics`: rebind the captured
framebuffer, clear to magenta, bind the fullscreen program, enable its
attributes, bind the offscreen color texture and draw the fullscreen quad. -/
def render_pass2_events {M T L : Type} (g : Graphics M T L)
    (defaultFBO : Nat) : List (GLEvent M L) :=
  [ .bindFramebuffer defaultFBO,
    .clearColor 1 0 1 1,
    .clear,
    .useProgram g.fullscreen_program,
    .enableVertexAttribArray kPositionSlot,
    .enableVertexAttribArray kTexCoordSlot,
    .activeTexture 0,
    .bindTexture g.color_renderbuffer,
    .uniform1i g.fullscreen_texture_uniform 0,
    .draw_mesh g.quad_mesh,
    .bindTexture 0 ]

/-- Embedding of `render_graphics`: issues the pass-1 calls, the per-command
loop, resets both queue counters to 0, then issues the composite pass against
the framebuffer binding captured at entry. Returns the updated state and the
trace of GL calls in program order. `boundFBO` is the framebuffer binding in
effect when the call begins. -/
def render_graphics {S M T L : Type} (vm : VecMath S M T)
    (g : Graphics M T L) (boundFBO : Nat) :
    Graphics M T L × List (GLEvent M L) :=
  let defaultFBO := boundFBO
  ( { g with num_commands := 0, num_lights := 0 },
    render_pass1_events vm g boundFBO ++
    render_command_events vm g ++
    render_pass2_events g defaultFBO )

/-- The in-use region of the render-command queue: `commands[0 .. num_commands)`
in index order. -/
def commandList {M T L : Type} (g : Graphics M T L) : List (RenderCommand T) :=
  (List.range g.num_commands).map g.commands

/-- The in-use region of the light queue: `lights[0 .. num_lights)` in index
order. -/
def lightList {M T L : Type} (g : Graphics M T L) : List L :=
  (List.range g.num_lights).map g.lights

/-- The mesh pointers passed to `_draw_mesh` (one `glDrawElements` each), in
the order they occur in a GL trace. -/
def meshDrawsOf {M L : Type} (tr : List (GLEvent M L)) : List Nat :=
  tr.filterMap fun e =>
    match e with
    | .draw_mesh m => some m
    | _ => none

/-- The framebuffer ids passed to `glBindFramebuffer`, in trace order. -/
def fbBindsOf {M L : Type} (tr : List (GLEvent M L)) : List Nat :=
  tr.filterMap fun e =>
    match e with
    | .bindFramebuffer f => some f
    | _ => none

/-- The `glClearColor` arguments, in trace order. -/
def clearColorsOf {M L : Type} (tr : List (GLEvent M L)) :
    List (ℚ × ℚ × ℚ × ℚ) :=
  tr.filterMap fun e =>
    match e with
    | .clearColor r g b a => some (r, g, b, a)
    | _ => none

/-- The (location, matrix) pairs of the `glUniformMatrix4fv` calls, in trace
order. -/
def matrixUploadsOf {M L : Type} (tr : List (GLEvent M L)) :
    List (Nat × M) :=
  tr.filterMap fun e =>
    match e with
    | .uniformMatrix4fv loc v => some (loc, v)
    | _ => none

/-- The light arrays passed to `glUniform3fv`, in trace order. -/
def lightUploadsOf {M L : Type} (tr : List (GLEvent M L)) : List (List L) :=
  tr.filterMap fun e =>
    match e with
    | .uniform3fv _ _ vs => some vs
    | _ => none

/-- A caller-side draw submission: the arguments of one `add_render_command`
call. -/
structure DrawRequest (T : Type) where
  mesh : Nat
  diffuse : Nat
  transform : T
deriving DecidableEq

/-- Submit a list of draw commands in order (each continuing past its assert,
which passes whenever the run stays within capacity). -/
def applyDraws {M T L : Type} (l : List (DrawRequest T))
    (g : Graphics M T L) : Graphics M T L :=
  l.foldl (fun s d => (add_render_command s d.mesh d.diffuse d.transform).final) g

/-- Submit a list of lights in order. -/
def applyLights {M T L : Type} (l : List L) (g : Graphics M T L) :
    Graphics M T L :=
  l.foldl (fun s d => (add_directional_light s d).final) g

/-- One external operation on the graphics context between creation and
shutdown. -/
inductive GOp (T L : Type) where
  | draw (mesh : Nat) (diffuse : Nat) (transform : T)
  | light (l : L)
  | setView (t : T)
  | render (boundFBO : Nat)

/-- Apply one operation to the state (renders discard their trace here). -/
def applyOp {S M T L : Type} (vm : VecMath S M T) (g : Graphics M T L) :
    GOp T L → Graphics M T L
  | .draw m d t => (add_render_command g m d t).final
  | .light l => (add_directional_light g l).final
  | .setView t => set_view_transform g t
  | .render fbo => (render_graphics vm g fbo).1

/-- Apply a sequence of operations in order. -/
def applyOps {S M T L : Type} (vm : VecMath S M T) (ops : List (GOp T L))
    (g : Graphics M T L) : Graphics M T L :=
  ops.foldl (applyOp vm) g

/-! Framebuffer-status validation from `_setup_framebuffer` (GL enum values
from the GLES3 headers). -/

/-- GL enum `GL_FRAMEBUFFER_COMPLETE`. -/
def GL_FRAMEBUFFER_COMPLETE : Nat := 0x8CD5

/-- GL enum `GL_FRAMEBUFFER_INCOMPLETE_ATTACHMENT`. -/
def GL_FRAMEBUFFER_INCOMPLETE_ATTACHMENT : Nat := 0x8CD6

/-- GL enum `GL_FRAMEBUFFER_INCOMPLETE_MISSING_ATTACHMENT`. -/
def GL_FRAMEBUFFER_INCOMPLETE_MISSING_ATTACHMENT : Nat := 0x8CD7

/-- GL enum `GL_FRAMEBUFFER_INCOMPLETE_DIMENSIONS`. -/
def GL_FRAMEBUFFER_INCOMPLETE_DIMENSIONS : Nat := 0x8CD9

/-- GL enum `GL_FRAMEBUFFER_UNSUPPORTED`. -/
def GL_FRAMEBUFFER_UNSUPPORTED : Nat := 0x8CDD

/-- Outcome of the completeness `switch` in `_setup_framebuffer`. -/
inductive FbDiag where
  | complete
  | unconnected
  | missing_attachment
  | dimensions_mismatch
  | unsupported
  | unknown_failure
deriving DecidableEq

/-- The `switch (framebuffer_status)` of `_setup_framebuffer`: every status
value falls into exactly one of the six cases (`default` gives
`unknown_failure`), and every case merely breaks — none aborts. -/
def fb_status_switch (status : Nat) : FbDiag :=
  if status = GL_FRAMEBUFFER_COMPLETE then .complete
  else if status = GL_FRAMEBUFFER_INCOMPLETE_ATTACHMENT then .unconnected
  else if status = GL_FRAMEBUFFER_INCOMPLETE_MISSING_ATTACHMENT then
    .missing_attachment
  else if status = GL_FRAMEBUFFER_INCOMPLETE_DIMENSIONS then
    .dimensions_mismatch
  else if status = GL_FRAMEBUFFER_UNSUPPORTED then .unsupported
  else .unknown_failure

/-- The diagnostic `system_log` line each switch case emits (the `%d` argument
is the framebuffer object id); the complete case logs nothing. -/
def fb_diag_log : FbDiag → List String
  | .complete => []
  | .unconnected => ["Framebuffer Object %d Error: Attachment Point Unconnected"]
  | .missing_attachment => ["Framebuffer Object %d Error: Missing Attachment"]
  | .dimensions_mismatch => ["Framebuffer Object %d Error: Dimensions do not match"]
  | .unsupported =>
      ["Framebuffer Object %d Error: Unsupported Framebuffer Configuration"]
  | .unknown_failure =>
      ["Framebuffer Object %d Error: Unkown Framebuffer Object Failure"]

/-- Log output of the validation tail of `_setup_framebuffer`: the switch
diagnostic (if any) followed by the unconditional final log line, reached for
every status because no case aborts. -/
def setup_framebuffer_logs (status : Nat) : List String :=
  fb_diag_log (fb_status_switch status) ++ ["Created framebuffer\n"]

/-- Result of `_create_program` after `glLinkProgram`, as a function of the
link status and info log the driver reports: on failure the info log is passed
to `system_log` and `assert(link_status != GL_FALSE)` fires (no value is
returned in debug builds); on success the linked program handle is returned
and no assertion fires. -/
structure ProgramResult where
  logs : List String
  assert_failed : Bool
  ret : Option Nat

/-- Embedding of the link-status tail of `_create_program`. `program` is the
handle from `glCreateProgram`, `link_status` the `GL_LINK_STATUS` query result
(`false` = `GL_FALSE`), `info_log` the driver text from
`glGetProgramInfoLog`. -/
def _create_program (program : Nat) (link_status : Bool) (info_log : String) :
    ProgramResult :=
  if link_status = false then
    { logs := [info_log], assert_failed := true, ret := none }
  else
    { logs := [], assert_failed := false, ret := some program }

/-! Concrete instantiation used by the witness theorems. -/

/-- A concrete vector-math instantiation over the rationals, used only to
evaluate the theorems at concrete inputs. -/
def testVM : VecMath ℚ ℚ ℚ :=
  { transform_get_matrix := fun t => t + 1
    mat4_inverse := fun m => -m
    mat4_perspective_fov := fun a b c d => a + 2*b + 3*c + 4*d
    kPiDiv2 := 2
    floatOfInt := fun i => (i : ℚ)
    fdiv := fun a b => a / b
    lit_0_1 := 1/10
    lit_1000 := 1000
    transform_zero := 0 }

/-- Concrete driver handles for the witness theorems. -/
def testHandles : GLHandles :=
  { program := 1
    projection_uniform := 2
    view_uniform := 3
    world_uniform := 4
    diffuse_uniform := 5
    lights_uniform := 6
    num_lights_uniform := 7
    color_renderbuffer := 8
    depth_renderbuffer := 9
    depth_texture := 10
    framebuffer := 11
    fullscreen_program := 12
    fullscreen_texture_uniform := 13
    cube_mesh := 14
    quad_mesh := 15 }

/-- A concrete freshly created context at 800x600 (lights are rationals). -/
def testG : Graphics ℚ ℚ ℚ :=
  create_graphics testVM testHandles 800 600

/-! Helper lemmas about the queue operations. -/

/-- Appending one render command extends the in-use queue region by exactly
that entry. -/
theorem commandList_add {M T L : Type} (g : Graphics M T L)
    (m d : Nat) (t : T) :
    commandList (add_render_command g m d t).final =
      commandList g ++ [{ transform := t, mesh := m, diffuse := d }] := by
  show (List.range (g.num_commands + 1)).map
      (Function.update g.commands g.num_commands
        { transform := t, mesh := m, diffuse := d }) =
    (List.range g.num_commands).map g.commands ++ [_]
  rw [List.range_succ, List.map_append]
  have h : ∀ a ∈ List.range g.num_commands,
      Function.update g.commands g.num_commands
        { transform := t, mesh := m, diffuse := d } a = g.commands a := by
    intro a ha
    exact Function.update_noteq (Nat.ne_of_lt (List.mem_range.mp ha)) _ _
  rw [List.map_congr_left h]
  simp

/-- Appending one light extends the in-use light region by exactly that
entry. -/
theorem lightList_add {M T L : Type} (g : Graphics M T L) (l : L) :
    lightList (add_directional_light g l).final = lightList g ++ [l] := by
  show (List.range (g.num_lights + 1)).map
      (Function.update g.lights g.num_lights l) =
    (List.range g.num_lights).map g.lights ++ [_]
  rw [List.range_succ, List.map_append]
  have h : ∀ a ∈ List.range g.num_lights,
      Function.update g.lights g.num_lights l a = g.lights a := by
    intro a ha
    exact Function.update_noteq (Nat.ne_of_lt (List.mem_range.mp ha)) _ _
  rw [List.map_congr_left h]
  simp

/-- A list of submitted draws lands in the queue in submission order. -/
theorem applyDraws_commandList {M T L : Type} (l : List (DrawRequest T))
    (g : Graphics M T L) :
    commandList (applyDraws l g) =
      commandList g ++
        l.map (fun d =>
          { transform := d.transform, mesh := d.mesh, diffuse := d.diffuse }) := by
  induction l generalizing g with
  | nil => simp [applyDraws]
  | cons d l ih =>
    show commandList (applyDraws l _) = _
    rw [ih, commandList_add]
    simp

/-- A list of submitted lights lands in the queue in submission order. -/
theorem applyLights_lightList {M T L : Type} (l : List L)
    (g : Graphics M T L) :
    lightList (applyLights l g) = lightList g ++ l := by
  induction l generalizing g with
  | nil => simp [applyLights]
  | cons d l ih =>
    show lightList (applyLights l _) = _
    rw [ih, lightList_add]
    simp

/-- Submitting draws leaves the light queue untouched. -/
theorem applyDraws_lightList {M T L : Type} (l : List (DrawRequest T))
    (g : Graphics M T L) :
    lightList (applyDraws l g) = lightList g := by
  induction l generalizing g with
  | nil => rfl
  | cons d l ih => exact ih _

/-- Submitting lights leaves the render-command queue untouched. -/
theorem applyLights_commandList {M T L : Type} (l : List L)
    (g : Graphics M T L) :
    commandList (applyLights l g) = commandList g := by
  induction l generalizing g with
  | nil => rfl
  | cons d l ih => exact ih _

/-- Submitting draws does not change the built-in quad mesh. -/
theorem applyDraws_quad_mesh {M T L : Type} (l : List (DrawRequest T))
    (g : Graphics M T L) :
    (applyDraws l g).quad_mesh = g.quad_mesh := by
  induction l generalizing g with
  | nil => rfl
  | cons d l ih => exact ih _

/-- Submitting lights does not change the built-in quad mesh. -/
theorem applyLights_quad_mesh {M T L : Type} (l : List L)
    (g : Graphics M T L) :
    (applyLights l g).quad_mesh = g.quad_mesh := by
  induction l generalizing g with
  | nil => rfl
  | cons d l ih => exact ih _

/-- No operation ever writes the `projection_matrix` field after creation. -/
theorem applyOp_projection {S M T L : Type} (vm : VecMath S M T)
    (g : Graphics M T L) (op : GOp T L) :
    (applyOp vm g op).projection_matrix = g.projection_matrix := by
  cases op <;> rfl

/-- No operation sequence ever writes the `projection_matrix` field. -/
theorem applyOps_projection {S M T L : Type} (vm : VecMath S M T)
    (ops : List (GOp T L)) (g : Graphics M T L) :
    (applyOps vm ops g).projection_matrix = g.projection_matrix := by
  induction ops generalizing g with
  | nil => rfl
  | cons op ops ih =>
    show (applyOps vm ops _).projection_matrix = _
    rw [ih, applyOp_projection]

/-- A context whose two queue counters are 0 is unchanged by resetting them. -/
theorem graphics_counter_eta {M T L : Type} (g : Graphics M T L)
    (h1 : g.num_commands = 0) (h2 : g.num_lights = 0) :
    ({ g with num_commands := 0, num_lights := 0 } : Graphics M T L) = g := by
  cases g
  simp_all

/-! Helper lemmas about GL traces. -/

/-- The trace of `render_graphics` is the pass-1 calls, the command loop and
the composite pass, in that order. -/
theorem render_trace_eq {S M T L : Type} (vm : VecMath S M T)
    (g : Graphics M T L) (fbo : Nat) :
    (render_graphics vm g fbo).2 =
      render_pass1_events vm g fbo ++ render_command_events vm g ++
        render_pass2_events g fbo := rfl

/-- The state returned by `render_graphics` is the input state with both queue
counters reset. -/
theorem render_state_eq {S M T L : Type} (vm : VecMath S M T)
    (g : Graphics M T L) (fbo : Nat) :
    (render_graphics vm g fbo).1 =
      { g with num_commands := 0, num_lights := 0 } := rfl

/-- Mesh draws split over trace concatenation. -/
theorem meshDrawsOf_append {M L : Type} (a b : List (GLEvent M L)) :
    meshDrawsOf (a ++ b) = meshDrawsOf a ++ meshDrawsOf b :=
  List.filterMap_append _ _ _

/-- Framebuffer binds split over trace concatenation. -/
theorem fbBindsOf_append {M L : Type} (a b : List (GLEvent M L)) :
    fbBindsOf (a ++ b) = fbBindsOf a ++ fbBindsOf b :=
  List.filterMap_append _ _ _

/-- Clear colors split over trace concatenation. -/
theorem clearColorsOf_append {M L : Type} (a b : List (GLEvent M L)) :
    clearColorsOf (a ++ b) = clearColorsOf a ++ clearColorsOf b :=
  List.filterMap_append _ _ _

/-- Matrix uploads split over trace concatenation. -/
theorem matrixUploadsOf_append {M L : Type} (a b : List (GLEvent M L)) :
    matrixUploadsOf (a ++ b) = matrixUploadsOf a ++ matrixUploadsOf b :=
  List.filterMap_append _ _ _

/-- Light uploads split over trace concatenation. -/
theorem lightUploadsOf_append {M L : Type} (a b : List (GLEvent M L)) :
    lightUploadsOf (a ++ b) = lightUploadsOf a ++ lightUploadsOf b :=
  List.filterMap_append _ _ _

/-- The command loop draws exactly the queued meshes, in queue order. -/
theorem meshDrawsOf_command_events {S M T L : Type} (vm : VecMath S M T)
    (g : Graphics M T L) :
    meshDrawsOf (render_command_events vm g) =
      (commandList g).map RenderCommand.mesh := by
  unfold render_command_events commandList
  generalize List.range g.num_commands = l
  induction l with
  | nil => rfl
  | cons a l ih =>
    rw [List.flatMap_cons, meshDrawsOf_append, ih, List.map_cons, List.map_cons]
    rfl

/-- The command loop binds no framebuffer. -/
theorem fbBindsOf_command_events {S M T L : Type} (vm : VecMath S M T)
    (g : Graphics M T L) :
    fbBindsOf (render_command_events vm g) = [] := by
  unfold render_command_events
  generalize List.range g.num_commands = l
  induction l with
  | nil => rfl
  | cons a l ih =>
    rw [List.flatMap_cons, fbBindsOf_append, ih]
    rfl

/-- The command loop issues no clears. -/
theorem clearColorsOf_command_events {S M T L : Type} (vm : VecMath S M T)
    (g : Graphics M T L) :
    clearColorsOf (render_command_events vm g) = [] := by
  unfold render_command_events
  generalize List.range g.num_commands = l
  induction l with
  | nil => rfl
  | cons a l ih =>
    rw [List.flatMap_cons, clearColorsOf_append, ih]
    rfl

/-- The command loop uploads exactly the queued world matrices, in queue
order. -/
theorem matrixUploadsOf_command_events {S M T L : Type} (vm : VecMath S M T)
    (g : Graphics M T L) :
    matrixUploadsOf (render_command_events vm g) =
      (commandList g).map
        (fun c => (g.world_uniform, vm.transform_get_matrix c.transform)) := by
  unfold render_command_events commandList
  generalize List.range g.num_commands = l
  induction l with
  | nil => rfl
  | cons a l ih =>
    rw [List.flatMap_cons, matrixUploadsOf_append, ih, List.map_cons,
      List.map_cons]
    rfl

/-- The command loop uploads no light arrays. -/
theorem lightUploadsOf_command_events {S M T L : Type} (vm : VecMath S M T)
    (g : Graphics M T L) :
    lightUploadsOf (render_command_events vm g) = [] := by
  unfold render_command_events
  generalize List.range g.num_commands = l
  induction l with
  | nil => rfl
  | cons a l ih =>
    rw [List.flatMap_cons, lightUploadsOf_append, ih]
    rfl

/-- A full render draws the queued meshes in queue order and then the
fullscreen quad. -/
theorem meshDrawsOf_render {S M T L : Type} (vm : VecMath S M T)
    (g : Graphics M T L) (fbo : Nat) :
    meshDrawsOf (render_graphics vm g fbo).2 =
      (commandList g).map RenderCommand.mesh ++ [g.quad_mesh] := by
  rw [render_trace_eq, meshDrawsOf_append, meshDrawsOf_append,
    meshDrawsOf_command_events]
  show ([] : List Nat) ++ _ ++ [g.quad_mesh] = _
  simp

/-- A full render binds the offscreen framebuffer and then the captured
binding, and nothing else. -/
theorem fbBindsOf_render {S M T L : Type} (vm : VecMath S M T)
    (g : Graphics M T L) (fbo : Nat) :
    fbBindsOf (render_graphics vm g fbo).2 = [g.framebuffer, fbo] := by
  rw [render_trace_eq, fbBindsOf_append, fbBindsOf_append,
    fbBindsOf_command_events]
  rfl

/-- A full render clears first the offscreen target and then the restored
target, to the two fixed colors. -/
theorem clearColorsOf_render {S M T L : Type} (vm : VecMath S M T)
    (g : Graphics M T L) (fbo : Nat) :
    clearColorsOf (render_graphics vm g fbo).2 =
      [(0, 1/5, 2/5, 1), (1, 0, 1, 1)] := by
  rw [render_trace_eq, clearColorsOf_append, clearColorsOf_append,
    clearColorsOf_command_events]
  rfl

/-- A full render uploads the projection matrix, then the view matrix (the
inverse of the stored view transform matrix), then one world matrix per
queued command in queue order. -/
theorem matrixUploadsOf_render {S M T L : Type} (vm : VecMath S M T)
    (g : Graphics M T L) (fbo : Nat) :
    matrixUploadsOf (render_graphics vm g fbo).2 =
      (g.projection_uniform, g.projection_matrix) ::
      (g.view_uniform,
        vm.mat4_inverse (vm.transform_get_matrix g.view_transform)) ::
      (commandList g).map
        (fun c => (g.world_uniform, vm.transform_get_matrix c.transform)) := by
  rw [render_trace_eq, matrixUploadsOf_append, matrixUploadsOf_append,
    matrixUploadsOf_command_events]
  show [(g.projection_uniform, g.projection_matrix), _] ++ _ ++ [] = _
  simp

/-- A full render uploads exactly one light array: the in-use light region in
submission order. -/
theorem lightUploadsOf_render {S M T L : Type} (vm : VecMath S M T)
    (g : Graphics M T L) (fbo : Nat) :
    lightUploadsOf (render_graphics vm g fbo).2 = [lightList g] := by
  rw [render_trace_eq, lightUploadsOf_append, lightUploadsOf_append,
    lightUploadsOf_command_events]
  rfl

/-! Claim theorems. -/

/-- C1: submitting a draw command while the command count is exactly at
capacity (the 1025th submission before a render) makes the capacity assertion
fail; submitting while the count is strictly below 1024 passes the assertion
and appends the command to the queue. The same holds for lights against the
capacity 64. -/
theorem claim_C1_capacity {M T L : Type} (g : Graphics M T L)
    (m d : Nat) (t : T) (l : L) :
    (g.num_commands = MAX_RENDER_COMMANDS →
       (add_render_command g m d t).assert_ok = false) ∧
    (g.num_commands < MAX_RENDER_COMMANDS →
       (add_render_command g m d t).assert_ok = true ∧
       (add_render_command g m d t).final.num_commands = g.num_commands + 1 ∧
       commandList (add_render_command g m d t).final =
         commandList g ++ [{ transform := t, mesh := m, diffuse := d }]) ∧
    (g.num_lights = MAX_LIGHTS →
       (add_directional_light g l).assert_ok = false) ∧
    (g.num_lights < MAX_LIGHTS →
       (add_directional_light g l).assert_ok = true ∧
       (add_directional_light g l).final.num_lights = g.num_lights + 1 ∧
       lightList (add_directional_light g l).final = lightList g ++ [l]) := by
  refine ⟨fun h => ?_, fun h => ⟨?_, rfl, commandList_add g m d t⟩,
    fun h => ?_, fun h => ⟨?_, rfl, lightList_add g l⟩⟩
  · simp [add_render_command, h]
  · simpa [add_render_command] using h
  · simp [add_directional_light, h]
  · simpa [add_directional_light] using h

/-- Witness for C1: on a context holding 1024 commands the next draw
submission fails its assertion, and on a fresh context it passes; likewise
for 64 lights. -/
theorem claim_C1_capacity_witness :
    (add_render_command { testG with num_commands := 1024 } 14 20 (5 : ℚ)
      ).assert_ok = false ∧
    (add_render_command testG 14 20 (5 : ℚ)).assert_ok = true ∧
    (add_directional_light { testG with num_lights := 64 } (3 : ℚ)
      ).assert_ok = false ∧
    (add_directional_light testG (3 : ℚ)).assert_ok = true :=
  ⟨(claim_C1_capacity { testG with num_commands := 1024 } 14 20 (5 : ℚ)
      (3 : ℚ)).1 rfl,
    ((claim_C1_capacity testG 14 20 (5 : ℚ) (3 : ℚ)).2.1 (by decide)).1,
    (claim_C1_capacity { testG with num_lights := 64 } 14 20 (5 : ℚ)
      (3 : ℚ)).2.2.1 rfl,
    ((claim_C1_capacity testG 14 20 (5 : ℚ) (3 : ℚ)).2.2.2 (by decide)).1⟩

/-- C2: after any within-capacity sequence of draw and light submissions to a
fresh context, the state returned by `render_graphics` has both queue
counters equal to 0. -/
theorem claim_C2_render_resets_queues {S M T L : Type}
    [Inhabited T] [Inhabited L] (vm : VecMath S M T) (h : GLHandles)
    (w ht : Int) (dl : List (DrawRequest T)) (ll : List L) (fbo : Nat)
    (hd : dl.length ≤ MAX_RENDER_COMMANDS) (hl : ll.length ≤ MAX_LIGHTS) :
    (render_graphics vm
        (applyLights ll (applyDraws dl
          (create_graphics vm h w ht : Graphics M T L))) fbo).1.num_commands
        = 0 ∧
    (render_graphics vm
        (applyLights ll (applyDraws dl
          (create_graphics vm h w ht : Graphics M T L))) fbo).1.num_lights
        = 0 :=
  ⟨rfl, rfl⟩

/-- Witness for C2: one draw and one light submitted to the concrete test
context, then rendered; both counters read 0. -/
theorem claim_C2_render_resets_queues_witness :
    (render_graphics testVM
        (applyLights [(2 : ℚ)] (applyDraws [⟨14, 20, (5 : ℚ)⟩] testG))
        0).1.num_commands = 0 ∧
    (render_graphics testVM
        (applyLights [(2 : ℚ)] (applyDraws [⟨14, 20, (5 : ℚ)⟩] testG))
        0).1.num_lights = 0 :=
  claim_C2_render_resets_queues testVM testHandles 800 600
    [⟨14, 20, (5 : ℚ)⟩] [(2 : ℚ)] 0 (by decide) (by decide)

/-- C3: after `set_view_transform t`, the second matrix upload of the next
render — the one to the `View` uniform location — carries exactly
`mat4_inverse (transform_get_matrix t)`; moreover `set_view_transform`
replaces the stored transform (so a later call wins) and draw or light
submissions never change it, so `t` is the last transform set before the
render. -/
theorem claim_C3_view_matrix {S M T L : Type} (vm : VecMath S M T)
    (g : Graphics M T L) (t t0 : T) (fbo m d : Nat) (l : L) :
    (matrixUploadsOf
        (render_graphics vm (set_view_transform g t) fbo).2)[1]? =
      some (g.view_uniform, vm.mat4_inverse (vm.transform_get_matrix t)) ∧
    (set_view_transform g t).view_transform = t ∧
    (set_view_transform (set_view_transform g t0) t).view_transform = t ∧
    (add_render_command g m d t0).final.view_transform = g.view_transform ∧
    (add_directional_light g l).final.view_transform = g.view_transform := by
  refine ⟨?_, rfl, rfl, rfl, rfl⟩
  rw [matrixUploadsOf_render]
  simp [set_view_transform]

/-- C5: the projection matrix stored by `create_graphics` is exactly
`mat4_perspective_fov(kPiDiv2, width/(float)height, 0.1f, 1000.0f)` — a pure
function of the construction arguments and the fixed constants — and no
sequence of subsequent operations (submits, view changes, renders) ever
changes it. -/
theorem claim_C5_projection_fixed {S M T L : Type} [Inhabited T] [Inhabited L]
    (vm : VecMath S M T) (h : GLHandles) (w ht : Int)
    (ops : List (GOp T L)) :
    (create_graphics vm h w ht : Graphics M T L).projection_matrix =
      vm.mat4_perspective_fov vm.kPiDiv2
        (vm.fdiv (vm.floatOfInt w) (vm.floatOfInt ht))
        vm.lit_0_1 vm.lit_1000 ∧
    (applyOps vm ops
        (create_graphics vm h w ht : Graphics M T L)).projection_matrix =
      (create_graphics vm h w ht : Graphics M T L).projection_matrix :=
  ⟨rfl, applyOps_projection vm ops _⟩

/-- C4: for any within-capacity sequence of submissions to a fresh context,
the render trace issues one mesh draw per submitted command in exactly the
submission order (followed only by the composite-pass quad draw), and uploads
the lights as one flat array in submission order. -/
theorem claim_C4_submission_order {S M T L : Type} [Inhabited T] [Inhabited L]
    (vm : VecMath S M T) (h : GLHandles) (w ht : Int)
    (dl : List (DrawRequest T)) (ll : List L) (fbo : Nat)
    (hd : dl.length ≤ MAX_RENDER_COMMANDS) (hl : ll.length ≤ MAX_LIGHTS) :
    meshDrawsOf
        (render_graphics vm
          (applyLights ll (applyDraws dl
            (create_graphics vm h w ht : Graphics M T L))) fbo).2 =
      dl.map DrawRequest.mesh ++ [h.quad_mesh] ∧
    lightUploadsOf
        (render_graphics vm
          (applyLights ll (applyDraws dl
            (create_graphics vm h w ht : Graphics M T L))) fbo).2 =
      [ll] := by
  constructor
  · rw [meshDrawsOf_render, applyLights_commandList, applyDraws_commandList,
      applyLights_quad_mesh, applyDraws_quad_mesh]
    show (([] ++ _).map _) ++ [h.quad_mesh] = _
    simp
  · rw [lightUploadsOf_render, applyLights_lightList, applyDraws_lightList]
    show [([] : List L) ++ ll] = _
    simp

/-- Witness for C4: two draws and one light on the concrete test context; the
render draws mesh 14 then mesh 21 then the quad (handle 15), and uploads the
single-light array. -/
theorem claim_C4_submission_order_witness :
    meshDrawsOf
        (render_graphics testVM
          (applyLights [(2 : ℚ)]
            (applyDraws [⟨14, 20, (5 : ℚ)⟩, ⟨21, 22, (7 : ℚ)⟩] testG))
          0).2 = [14, 21, 15] ∧
    lightUploadsOf
        (render_graphics testVM
          (applyLights [(2 : ℚ)]
            (applyDraws [⟨14, 20, (5 : ℚ)⟩, ⟨21, 22, (7 : ℚ)⟩] testG))
          0).2 = [[(2 : ℚ)]] := by
  have h := claim_C4_submission_order testVM testHandles 800 600
    [⟨14, 20, (5 : ℚ)⟩, ⟨21, 22, (7 : ℚ)⟩] [(2 : ℚ)] 0 (by decide) (by decide)
  simpa using h

/-- C6: starting from empty queues, rendering twice with no submissions in
between produces two identical GL traces (in particular identical composite
passes); each such render issues zero mesh draws in the offscreen pass,
clears the restored target to the magenta marker color (1,0,1,1), and issues
exactly one draw — the fullscreen quad — in the composite pass. -/
theorem claim_C6_render_idempotent {S M T L : Type} (vm : VecMath S M T)
    (g : Graphics M T L) (fbo : Nat)
    (h1 : g.num_commands = 0) (h2 : g.num_lights = 0) :
    (render_graphics vm (render_graphics vm g fbo).1 fbo).2 =
      (render_graphics vm g fbo).2 ∧
    meshDrawsOf
        (render_pass1_events vm g fbo ++ render_command_events vm g) = [] ∧
    clearColorsOf (render_pass2_events g fbo) = [(1, 0, 1, 1)] ∧
    meshDrawsOf (render_pass2_events g fbo) = [g.quad_mesh] := by
  have he : (render_graphics vm g fbo).1 = g := by
    rw [render_state_eq]
    exact graphics_counter_eta g h1 h2
  refine ⟨by rw [he], ?_, rfl, rfl⟩
  rw [meshDrawsOf_append, meshDrawsOf_command_events]
  show ([] : List Nat) ++ (commandList g).map _ = []
  simp [commandList, h1]

/-- Witness for C6: the fresh concrete test context has empty queues; two
renders from it give the same trace, with no offscreen draw, the magenta
composite clear, and the single quad draw. -/
theorem claim_C6_render_idempotent_witness :
    (render_graphics testVM (render_graphics testVM testG 0).1 0).2 =
      (render_graphics testVM testG 0).2 ∧
    meshDrawsOf
        (render_pass1_events testVM testG 0 ++
          render_command_events testVM testG) = [] ∧
    clearColorsOf (render_pass2_events testG 0) = [(1, 0, 1, 1)] ∧
    meshDrawsOf (render_pass2_events testG 0) = [testG.quad_mesh] :=
  claim_C6_render_idempotent testVM testG 0 rfl rfl

/-- C7: the framebuffer completeness switch sends every possible status value
to exactly one of the six outcomes — complete (which logs nothing) or one of
the five error diagnostics — each known GL status to its named outcome, at
most one diagnostic line is logged, and for every status the setup continues
to its final log line instead of aborting. -/
theorem claim_C7_framebuffer_diagnostics (status : Nat) :
    (setup_framebuffer_logs status).getLast? = some "Created framebuffer\n" ∧
    (fb_status_switch status = .complete ↔
      status = GL_FRAMEBUFFER_COMPLETE) ∧
    (fb_status_switch status = .unconnected ↔
      status = GL_FRAMEBUFFER_INCOMPLETE_ATTACHMENT) ∧
    (fb_status_switch status = .missing_attachment ↔
      status = GL_FRAMEBUFFER_INCOMPLETE_MISSING_ATTACHMENT) ∧
    (fb_status_switch status = .dimensions_mismatch ↔
      status = GL_FRAMEBUFFER_INCOMPLETE_DIMENSIONS) ∧
    (fb_status_switch status = .unsupported ↔
      status = GL_FRAMEBUFFER_UNSUPPORTED) ∧
    (fb_diag_log (fb_status_switch status)).length ≤ 1 := by
  simp only [setup_framebuffer_logs, fb_status_switch,
    GL_FRAMEBUFFER_COMPLETE, GL_FRAMEBUFFER_INCOMPLETE_ATTACHMENT,
    GL_FRAMEBUFFER_INCOMPLETE_MISSING_ATTACHMENT,
    GL_FRAMEBUFFER_INCOMPLETE_DIMENSIONS, GL_FRAMEBUFFER_UNSUPPORTED]
  split_ifs <;> simp_all [fb_diag_log]

/-- C8: on a failed link the driver info log is logged and the assertion
fires with no returned handle (no recovery path); on a successful link no
assertion fires, nothing is logged, and the linked program handle is
returned. -/
theorem claim_C8_link_failure (program : Nat) (info_log : String) :
    ((_create_program program false info_log).logs = [info_log] ∧
     (_create_program program false info_log).assert_failed = true ∧
     (_create_program program false info_log).ret = none) ∧
    ((_create_program program true info_log).assert_failed = false ∧
     (_create_program program true info_log).logs = [] ∧
     (_create_program program true info_log).ret = some program) := by
  simp [_create_program]

/-- C9: every render first queries the framebuffer binding in effect at
entry, and its trace contains exactly two framebuffer binds: the offscreen
framebuffer for pass 1, then exactly the captured binding (not a hard-coded
0) for the composite pass. -/
theorem claim_C9_restore_binding {S M T L : Type} (vm : VecMath S M T)
    (g : Graphics M T L) (fbo : Nat) :
    fbBindsOf (render_graphics vm g fbo).2 = [g.framebuffer, fbo] ∧
    ((render_graphics vm g fbo).2)[0]? =
      some (.queryFramebufferBinding fbo) := by
  refine ⟨fbBindsOf_render vm g fbo, ?_⟩
  rw [render_trace_eq]
  simp [render_pass1_events]

/-- C10: in both submit paths the counter is incremented before the assertion
is evaluated, so at the assert checkpoint the stored count is the old count
plus one; on the first over-capacity submission the assertion fails with the
stored count strictly above capacity, and the continuation past the assert
(release builds) writes the entry at index 1024 (resp. 64) — one slot past
the last valid index of the fixed array. -/
theorem claim_C10_increment_before_assert {M T L : Type}
    (g : Graphics M T L) (m d : Nat) (t : T) (l : L) :
    (add_render_command g m d t).state_at_assert.num_commands =
      g.num_commands + 1 ∧
    (add_directional_light g l).state_at_assert.num_lights =
      g.num_lights + 1 ∧
    (g.num_commands = MAX_RENDER_COMMANDS →
       (add_render_command g m d t).assert_ok = false ∧
       MAX_RENDER_COMMANDS <
         (add_render_command g m d t).state_at_assert.num_commands ∧
       (add_render_command g m d t).write_index = MAX_RENDER_COMMANDS ∧
       (add_render_command g m d t).final.commands MAX_RENDER_COMMANDS =
         { transform := t, mesh := m, diffuse := d }) ∧
    (g.num_lights = MAX_LIGHTS →
       (add_directional_light g l).assert_ok = false ∧
       MAX_LIGHTS < (add_directional_light g l).state_at_assert.num_lights ∧
       (add_directional_light g l).write_index = MAX_LIGHTS ∧
       (add_directional_light g l).final.lights MAX_LIGHTS = l) := by
  refine ⟨rfl, rfl, fun h => ⟨?_, ?_, h, ?_⟩, fun h => ⟨?_, ?_, h, ?_⟩⟩
  · simp [add_render_command, h]
  · show MAX_RENDER_COMMANDS < g.num_commands + 1
    omega
  · show Function.update g.commands g.num_commands _ MAX_RENDER_COMMANDS = _
    rw [h]
    exact Function.update_same _ _ _
  · simp [add_directional_light, h]
  · show MAX_LIGHTS < g.num_lights + 1
    omega
  · show Function.update g.lights g.num_lights _ MAX_LIGHTS = _
    rw [h]
    exact Function.update_same _ _ _

/-- Witness for C10: on concrete contexts holding exactly 1024 commands
(resp. 64 lights), the next submission has the incremented count at the
assert, a failed assertion, and writes at index 1024 (resp. 64). -/
theorem claim_C10_increment_before_assert_witness :
    (add_render_command { testG with num_commands := 1024 } 14 20 (5 : ℚ)
      ).state_at_assert.num_commands = 1025 ∧
    (add_render_command { testG with num_commands := 1024 } 14 20 (5 : ℚ)
      ).assert_ok = false ∧
    (add_render_command { testG with num_commands := 1024 } 14 20 (5 : ℚ)
      ).write_index = 1024 ∧
    (add_directional_light { testG with num_lights := 64 } (3 : ℚ)
      ).assert_ok = false ∧
    (add_directional_light { testG with num_lights := 64 } (3 : ℚ)
      ).write_index = 64 := by
  have hc := claim_C10_increment_before_assert
    ({ testG with num_commands := 1024 }) 14 20 (5 : ℚ) (3 : ℚ)
  have hl := claim_C10_increment_before_assert
    ({ testG with num_lights := 64 }) 14 20 (5 : ℚ) (3 : ℚ)
  exact ⟨hc.1, (hc.2.2.1 rfl).1, (hc.2.2.1 rfl).2.2.1,
    (hl.2.2.2 rfl).1, (hl.2.2.2 rfl).2.2.1⟩

end DeferredGL
